import Mathlib

/-!
Verification development for a parkrun results analyser: a single-file
pipeline that fetches an athlete's results page, selects the results table,
normalises date and time strings, and renders a chart with mm:ss tick
labels.  The definitions below are a shallow embedding of
`parkrun_analyser.py` (and of the behaviour of the library calls it makes),
with HTML parsing abstracted as a list of already-parsed tables.
-/

namespace Parkrun

/-- A calendar date as produced by date parsing (pandas `to_datetime`). -/
structure Date where
  year : Nat
  month : Nat
  day : Nat
deriving DecidableEq, Repr

/-- A parsed HTML table (one element of the list returned by
`pd.read_html`): its column names, and its rows, each row being a mapping
from column name to the cell's string value. -/
structure Table where
  columns : List String
  rows : List (String → String)

/-- The errors the program can raise.  `httpError` is the
`requests.HTTPError` raised by `response.raise_for_status()`; the others
are the `RuntimeError`s and parse errors of `parkrun_analyser.py`. -/
inductive Err where
  | httpError (code : Nat)
  | loadPageManually
  | failedToLoadPage (code : Nat)
  | tableNotFound
  | dateParseError (s : String)
  | timeParseError (s : String)
deriving DecidableEq, Repr

/-- The message text attached to each error in the source. -/
def errMessage : Err → String
  | .httpError code => toString code ++ " Error"
  | .loadPageManually => "Load page manually and try again"
  | .failedToLoadPage code => "Failed to load page, error code: " ++ toString code
  | .tableNotFound => "Could not find results table"
  | .dateParseError s => "time data " ++ s ++ " does not match format"
  | .timeParseError s => "could not parse " ++ s

/-- Number of `:` characters in a string: Python `time_str.count(':')`. -/
def countColons (s : String) : Nat := s.data.count ':'

/-- `_normalise_time_string` from the source: if the string has exactly one
colon, prepend `"00:"` to add an hour value; otherwise return it
unchanged. -/
def normalise_time_string (time_str : String) : String :=
  if countColons time_str = 1 then "00:" ++ time_str else time_str

/-- Split a character list on a separator character (the shape underlying
both `%d/%m/%Y` field matching and `hh:mm:ss` timedelta parsing). -/
def splitOnChar (sep : Char) : List Char → List (List Char)
  | [] => [[]]
  | c :: rest =>
    if c = sep then [] :: splitOnChar sep rest
    else
      match splitOnChar sep rest with
      | [] => [[c]]
      | g :: gs => (c :: g) :: gs

/-- Numeric value of a decimal digit string. -/
def digitsVal (l : List Char) : Nat :=
  l.foldl (fun a c => a * 10 + (c.toNat - '0'.toNat)) 0

/-- Models `pd.to_timedelta` on colon-separated strings: `h:m:s` with each
field a nonempty run of digits yields `h*3600 + m*60 + s` whole seconds
(`.dt.total_seconds().astype(int)` in the source).  `Timedelta` is stored
as int64 nanoseconds, so a value whose total nanoseconds exceed `2^63 - 1`
raises `OutOfBoundsTimedelta`; anything else fails too. -/
def parse_timedelta (s : String) : Option Nat :=
  match splitOnChar ':' s.data with
  | [h, m, sec] =>
    if !h.isEmpty && h.all Char.isDigit && !m.isEmpty && m.all Char.isDigit
        && !sec.isEmpty && sec.all Char.isDigit then
      let total := digitsVal h * 3600 + digitsVal m * 60 + digitsVal sec
      if total * 1000000000 ≤ 9223372036854775807 then some total else none
    else none
  | _ => none

/-- Gregorian leap-year rule, as used by Python `datetime`. -/
def isLeap (y : Nat) : Bool :=
  y % 4 = 0 && (y % 100 != 0 || y % 400 = 0)

/-- Days in a month, as validated by Python `datetime`. -/
def daysInMonth (m y : Nat) : Nat :=
  match m with
  | 1 => 31 | 2 => if isLeap y then 29 else 28 | 3 => 31 | 4 => 30
  | 5 => 31 | 6 => 30 | 7 => 31 | 8 => 31 | 9 => 30 | 10 => 31
  | 11 => 30 | 12 => 31 | _ => 0

/-- Models `pd.to_datetime(_, format="%d/%m/%Y")` on a single value:
`%d` matches one or two digits valued 1..31, `%m` one or two digits valued
1..12, `%Y` exactly four digits, separated by literal `/`; the resulting
triple must be a real calendar date (day within the month, year positive).
The result is a `datetime64[ns]` `Timestamp` at midnight, stored as int64
nanoseconds since the epoch, so `Timestamp.min` = 1677-09-21 00:12:43.14…
and `Timestamp.max` = 2262-04-11 23:47:16.85…: a midnight outside
1677-09-22 .. 2262-04-11 raises `OutOfBoundsDatetime` (the date range is
checked here via the order-preserving encoding `y*10000 + m*100 + d`).
Any non-matching or invalid value fails too. -/
def parse_run_date (s : String) : Option Date :=
  match splitOnChar '/' s.data with
  | [d, m, y] =>
    if d.all Char.isDigit && 1 ≤ d.length && d.length ≤ 2
        && m.all Char.isDigit && 1 ≤ m.length && m.length ≤ 2
        && y.all Char.isDigit && y.length = 4 then
      let dv := digitsVal d
      let mv := digitsVal m
      let yv := digitsVal y
      if 1 ≤ dv && dv ≤ 31 && 1 ≤ mv && mv ≤ 12 && 1 ≤ yv
          && dv ≤ daysInMonth mv yv then
        if 16770922 ≤ yv * 10000 + mv * 100 + dv
            && yv * 10000 + mv * 100 + dv ≤ 22620411 then
          some ⟨yv, mv, dv⟩
        else none
      else none
    else none
  | _ => none

/-- Map a fallible element-level parse over a column of values, failing at
the first value whose parse fails (pandas raises on the first bad value of
a column; no partial success). -/
def mapOrErr (f : α → Option β) (err : α → Err) : List α → Except Err (List β)
  | [] => .ok []
  | x :: xs =>
    match f x with
    | none => .error (err x)
    | some y =>
      match mapOrErr f err xs with
      | .error e => .error e
      | .ok ys => .ok (y :: ys)

/-- The required column names: `{"Event", "Run Date", "Time"}`. -/
def requiredColumns : List String := ["Event", "Run Date", "Time"]

/-- The table-selection test from `_parse_results_page`:
`{"Event", "Run Date", "Time"}.issubset(df.columns)`. -/
def qualifies (t : Table) : Bool :=
  requiredColumns.all (fun c => t.columns.contains c)

/-- The table-selection loop of `_parse_results_page`: the first table, in
document order, whose columns include all three required names. -/
def findResultsTable (tables : List Table) : Option Table :=
  tables.find? qualifies

/-- The three-column reduced result set returned by `_parse_results_page`
(`results_df[["Event", "Run Date", "time_seconds"]]`). -/
structure OutFrame where
  columns : List String
  rows : List (String × Date × Nat)
deriving DecidableEq, Repr

/-- `_parse_results_page`, with `pd.read_html` abstracted: its input is the
list of tables parsed from the page.  Selects the first qualifying table
(raising if none), converts the `"Run Date"` column with
`to_datetime(format="%d/%m/%Y")`, converts the `"Time"` column with
`to_timedelta` after `_normalise_time_string`, and returns the reduced
frame with columns `["Event", "Run Date", "time_seconds"]`, rows in source
order. -/
def parse_results_page (tables : List Table) : Except Err OutFrame :=
  match findResultsTable tables with
  | none => .error .tableNotFound
  | some t =>
    match mapOrErr parse_run_date Err.dateParseError
        (t.rows.map (fun r => r "Run Date")) with
    | .error e => .error e
    | .ok dates =>
      match mapOrErr (fun s => parse_timedelta (normalise_time_string s))
          Err.timeParseError (t.rows.map (fun r => r "Time")) with
      | .error e => .error e
      | .ok secs =>
        .ok { columns := ["Event", "Run Date", "time_seconds"],
              rows := (t.rows.map (fun r => r "Event")).zip (dates.zip secs) }

/-- `_request_results_page`, reduced to its status handling: the GET is
modelled by the status code of the response it would return, and
`response.raise_for_status()` raises `requests.HTTPError` exactly when
`400 <= status_code < 600`; otherwise the response is returned. -/
def request_results_page (status : Nat) : Except Err Nat :=
  if 400 ≤ status ∧ status < 600 then .error (.httpError status)
  else .ok status

/-- `analyse_results`, with the network modelled by the response's status
code and the parsed tables of its body: fetch (which may itself raise),
then the explicit status checks (202 distinct error, other non-200 generic
error), then parsing. -/
def analyse_results (status : Nat) (tables : List Table) : Except Err OutFrame :=
  match request_results_page status with
  | .error e => .error e
  | .ok st =>
    if st ≠ 200 then
      if st = 202 then .error .loadPageManually
      else .error (.failedToLoadPage st)
    else parse_results_page tables

/-- Zero-pad a number to (at least) two digits: Python `f"{n:02d}"`. -/
def pad2 (n : Nat) : String :=
  if n < 10 then "0" ++ Nat.repr n else Nat.repr n

/-- Tick label for a duration in seconds: `f"{v//60:02d}:{v % 60:02d}"`. -/
def tickLabel (v : Nat) : String :=
  pad2 (v / 60) ++ ":" ++ pad2 (v % 60)

/-- The figure configuration produced by `_generate_graph`. -/
structure GraphSpec where
  title : String
  xaxisTitle : String
  yaxisTitle : String
  tickvals : List Nat
  ticktext : List String
  outputFileName : String
deriving DecidableEq, Repr

/-- `_generate_graph`: builds the line chart and overrides the y-axis
ticks, setting `tickvals` to the frame's `time_seconds` column and
`ticktext` to its mm:ss renderings. -/
def generate_graph (f : OutFrame) : GraphSpec :=
  { title := "Parkrun results",
    xaxisTitle := "Date",
    yaxisTitle := "Time (minute:seconds)",
    tickvals := f.rows.map (fun r => r.2.2),
    ticktext := f.rows.map (fun r => tickLabel r.2.2),
    outputFileName := "results.html" }

/-! ### Helper lemmas -/

lemma not_mem_of_all_digits {l : List Char} {c : Char}
    (h : l.all Char.isDigit = true) (hc : c.isDigit = false) : c ∉ l := by
  intro hm
  have := List.all_eq_true.mp h c hm
  rw [hc] at this
  exact Bool.false_ne_true this

lemma count_eq_zero_of_all_digits {l : List Char} {c : Char}
    (h : l.all Char.isDigit = true) (hc : c.isDigit = false) : l.count c = 0 :=
  List.count_eq_zero.mpr (not_mem_of_all_digits h hc)

lemma splitOnChar_of_not_mem {sep : Char} :
    ∀ {l : List Char}, sep ∉ l → splitOnChar sep l = [l]
  | [], _ => rfl
  | c :: rest, h => by
    have hc : ¬ c = sep := fun hcs => h (hcs ▸ List.mem_cons_self c rest)
    have hr : sep ∉ rest := fun hm => h (List.mem_cons_of_mem c hm)
    simp [splitOnChar, hc, splitOnChar_of_not_mem hr]

lemma splitOnChar_append {sep : Char} :
    ∀ {xs : List Char} (ys : List Char), sep ∉ xs →
      splitOnChar sep (xs ++ sep :: ys) = xs :: splitOnChar sep ys
  | [], ys, _ => by simp [splitOnChar]
  | c :: xs, ys, h => by
    have hc : ¬ c = sep := fun hcs => h (hcs ▸ List.mem_cons_self c xs)
    have hx : sep ∉ xs := fun hm => h (List.mem_cons_of_mem c hm)
    simp [splitOnChar, hc, splitOnChar_append ys hx]

lemma find?_first {α} (p : α → Bool) :
    ∀ (l : List α) (i : Nat) (hi : i < l.length), p (l.get ⟨i, hi⟩) = true →
      (∀ j (hj : j < l.length), j < i → p (l.get ⟨j, hj⟩) = false) →
      l.find? p = some (l.get ⟨i, hi⟩)
  | [], i, hi => by simp at hi
  | a :: l, 0, hi => fun hq _ => by
    simpa using List.find?_cons_of_pos l hq
  | a :: l, i + 1, hi => fun hq hfirst => by
    have h0 : p a = false := by
      simpa using hfirst 0 (Nat.succ_pos _) (Nat.succ_pos _)
    rw [List.find?_cons_of_neg l (by simp [h0])]
    exact find?_first p l i (Nat.lt_of_succ_lt_succ hi) hq
      (fun j hj hlt => hfirst (j + 1) (Nat.succ_lt_succ hj) (Nat.succ_lt_succ hlt))

lemma mapOrErr_ok_spec {α β} {f : α → Option β} {err : α → Err} :
    ∀ {xs : List α} {ys : List β}, mapOrErr f err xs = .ok ys →
      ys.length = xs.length ∧
      ∀ j (hx : j < xs.length) (hy : j < ys.length), f xs[j] = some ys[j]
  | [], ys, h => by
    cases h
    exact ⟨rfl, fun j hx _ => absurd hx (Nat.not_lt_zero j)⟩
  | x :: xs, ys, h => by
    cases hfx : f x with
    | none => rw [mapOrErr, hfx] at h; cases h
    | some y =>
      cases hrec : mapOrErr f err xs with
      | error e => rw [mapOrErr, hfx, hrec] at h; cases h
      | ok ys' =>
        rw [mapOrErr, hfx, hrec] at h
        cases h
        obtain ⟨hlen, hpt⟩ := mapOrErr_ok_spec hrec
        refine ⟨by simpa using hlen, fun j hx hy => ?_⟩
        cases j with
        | zero => simpa using hfx
        | succ j' =>
          simpa using hpt j' (Nat.lt_of_succ_lt_succ hx) (Nat.lt_of_succ_lt_succ hy)

lemma mapOrErr_error_of_exists {α β} (f : α → Option β) (err : α → Err) :
    ∀ {xs : List α}, (∃ x ∈ xs, f x = none) →
      ∃ a, a ∈ xs ∧ f a = none ∧ mapOrErr f err xs = .error (err a)
  | [], h => absurd h (by simp)
  | x :: xs, h => by
    cases hfx : f x with
    | none => exact ⟨x, List.mem_cons_self x xs, hfx, by rw [mapOrErr, hfx]⟩
    | some y =>
      obtain ⟨b, hb, hfb⟩ := h
      have hbx : b ∈ xs := by
        rcases List.mem_cons.mp hb with rfl | h'
        · rw [hfx] at hfb; cases hfb
        · exact h'
      obtain ⟨a, ha, hfa, heq⟩ := mapOrErr_error_of_exists f err ⟨b, hbx, hfb⟩
      exact ⟨a, List.mem_cons_of_mem x ha, hfa, by rw [mapOrErr, hfx, heq]⟩

lemma mapOrErr_error_form {α β} {f : α → Option β} {err : α → Err} :
    ∀ {xs : List α} {e : Err}, mapOrErr f err xs = .error e → ∃ a ∈ xs, e = err a
  | [], _, h => by simp [mapOrErr] at h
  | x :: xs, e, h => by
    rw [mapOrErr] at h
    cases hfx : f x with
    | none =>
      rw [hfx] at h
      cases h
      exact ⟨x, List.mem_cons_self x xs, rfl⟩
    | some y =>
      rw [hfx] at h
      cases hrec : mapOrErr f err xs with
      | error e' =>
        rw [hrec] at h
        cases h
        obtain ⟨a, ha, hea⟩ := mapOrErr_error_form hrec
        exact ⟨a, List.mem_cons_of_mem x ha, hea⟩
      | ok ys => rw [hrec] at h; cases h

lemma parse_results_page_error_cases (tables : List Table) (e : Err)
    (h : parse_results_page tables = .error e) :
    e = .tableNotFound ∨ (∃ s, e = .dateParseError s) ∨ ∃ s, e = .timeParseError s := by
  unfold parse_results_page at h
  split at h
  · cases h
    exact Or.inl rfl
  · split at h
    · next e' heq =>
      cases h
      obtain ⟨a, _, hea⟩ := mapOrErr_error_form heq
      exact Or.inr (Or.inl ⟨a, hea⟩)
    · split at h
      · next e' heq =>
        cases h
        obtain ⟨a, _, hea⟩ := mapOrErr_error_form heq
        exact Or.inr (Or.inr ⟨a, hea⟩)
      · cases h

/-! ### Claims -/

/-- C9: for every time string whose colon count is neither one nor two
(zero colons, or more than two), `_normalise_time_string` returns the
string unchanged, passing it through to the downstream duration parser
rather than raising its own error. -/
theorem normalise_other_colon_counts_unchanged (s : String)
    (h1 : countColons s ≠ 1) (_h2 : countColons s ≠ 2) :
    normalise_time_string s = s := by
  simp [normalise_time_string, h1]

/-- Witness for C9 at the colon-free string `"abc"`. -/
theorem normalise_other_colon_counts_unchanged_witness :
    countColons "abc" ≠ 1 ∧ countColons "abc" ≠ 2 ∧
      normalise_time_string "abc" = "abc" :=
  ⟨by decide, by decide,
    normalise_other_colon_counts_unchanged "abc" (by decide) (by decide)⟩

/-- C3: for every list of parsed tables containing at least one table whose
column-name set includes all of `"Event"`, `"Run Date"` and `"Time"`, the
table selection returns the first such table in document order; and the
qualifying test depends only on column-name membership, so extra columns
and column order are irrelevant. -/
theorem find_results_table_first_match (tables : List Table) (i : Nat)
    (hi : i < tables.length) (hq : qualifies (tables.get ⟨i, hi⟩) = true)
    (hfirst : ∀ j (hj : j < tables.length), j < i →
      qualifies (tables.get ⟨j, hj⟩) = false) :
    findResultsTable tables = some (tables.get ⟨i, hi⟩) ∧
      ∀ t u : Table, (∀ c, c ∈ t.columns ↔ c ∈ u.columns) →
        qualifies t = qualifies u := by
  constructor
  · exact find?_first qualifies tables i hi hq hfirst
  · intro t u h
    simp only [qualifies, requiredColumns, List.all_cons, List.all_nil,
      Bool.and_true, List.contains, List.elem_eq_mem]
    rw [decide_eq_decide.mpr (h "Event"), decide_eq_decide.mpr (h "Run Date"),
      decide_eq_decide.mpr (h "Time")]

/-- First example table: qualifying columns in a different order plus an
extra column. -/
def exTableA : Table :=
  { columns := ["Position", "Time", "Event", "Run Date"], rows := [] }

/-- Second example table: does not qualify (no `"Run Date"` column). -/
def exTableB : Table :=
  { columns := ["Event", "Date", "Time"], rows := [] }

/-- Witness for C3: with a non-qualifying table first, the second table is
selected. -/
theorem find_results_table_first_match_witness :
    findResultsTable [exTableB, exTableA] =
      some ([exTableB, exTableA].get ⟨1, by decide⟩) :=
  (find_results_table_first_match [exTableB, exTableA] 1 (by decide)
    (by decide)
    (fun j hj hlt => by
      have hj0 : j = 0 := by omega
      subst hj0
      show qualifies exTableB = false
      decide)).1

/-- C4: for every list of parsed tables in which no table's column-name set
contains all of `"Event"`, `"Run Date"` and `"Time"`, `_parse_results_page`
raises the results-table-not-found error and produces no result set. -/
theorem results_table_not_found (tables : List Table)
    (h : ∀ t ∈ tables, qualifies t = false) :
    parse_results_page tables = .error .tableNotFound := by
  have hfind : findResultsTable tables = none :=
    List.find?_eq_none.mpr (fun t ht => by simp [h t ht])
  simp [parse_results_page, hfind]

/-- Witness for C4: a page whose only table has columns
`{"Event", "Date", "Time"}` (missing the exact `"Run Date"` label). -/
theorem results_table_not_found_witness :
    parse_results_page [exTableB] = .error .tableNotFound :=
  results_table_not_found [exTableB]
    (fun t ht => by
      rw [List.mem_singleton] at ht
      subst ht
      decide)

/-- C5 counterexample: at status 404 the run aborts with the fetcher's
`requests.HTTPError` (raised by `raise_for_status`), not with the caller's
generic "Failed to load page, error code" `RuntimeError`, so the claim that
every non-200, non-202 status yields the generic failed-to-load-page error
is false at 404. -/
theorem status_404_not_generic_error :
    analyse_results 404 [] = .error (.httpError 404) ∧
      analyse_results 404 [] ≠ .error (.failedToLoadPage 404) :=
  ⟨rfl, by simp [analyse_results, request_results_page]⟩

/-- C5 (amended): status 200 proceeds to parsing; status 202 raises the
distinct load-page-manually error; a non-200, non-202 status below 400 (or
at/above 600, where `raise_for_status` does not raise) aborts with the
generic failed-to-load-page error carrying the status code; statuses
400..599 abort earlier with the fetcher's HTTP error, which also carries
the status code. -/
theorem status_code_handling (status : Nat) (tables : List Table) :
    (status = 200 → analyse_results status tables = parse_results_page tables) ∧
    (status = 202 → analyse_results status tables = .error .loadPageManually) ∧
    (status ≠ 200 → status ≠ 202 → (status < 400 ∨ 600 ≤ status) →
      analyse_results status tables = .error (.failedToLoadPage status)) ∧
    (400 ≤ status → status < 600 →
      analyse_results status tables = .error (.httpError status)) := by
  refine ⟨?_, ?_, ?_, ?_⟩
  · rintro rfl
    rfl
  · rintro rfl
    rfl
  · intro h200 h202 hrange
    have hnr : ¬(400 ≤ status ∧ status < 600) := by omega
    simp [analyse_results, request_results_page, hnr, h200, h202]
  · intro h1 h2
    simp [analyse_results, request_results_page, h1, h2]

/-- Witness for C5 (amended), one instance per status class. -/
theorem status_code_handling_witness :
    analyse_results 200 [] = parse_results_page [] ∧
    analyse_results 202 [] = .error .loadPageManually ∧
    analyse_results 203 [] = .error (.failedToLoadPage 203) ∧
    analyse_results 500 [] = .error (.httpError 500) :=
  ⟨(status_code_handling 200 []).1 rfl,
   (status_code_handling 202 []).2.1 rfl,
   (status_code_handling 203 []).2.2.1 (by decide) (by decide) (Or.inl (by decide)),
   (status_code_handling 500 []).2.2.2 (by decide) (by decide)⟩

/-- C10 counterexample: `raise_for_status` raises only for statuses in
400..599, so a response with status 600 (HTTP clients accept status lines
up to 999) is returned to the caller and does reach the generic
failed-to-load-page branch, contradicting the claim that the branch is
unreachable for every status of 400 or greater. -/
theorem status_600_reaches_generic_branch :
    analyse_results 600 [] = .error (.failedToLoadPage 600) ∧
      analyse_results 600 [] ≠ .error (.httpError 600) :=
  ⟨rfl, by simp [analyse_results, request_results_page]⟩

/-- C10 (amended): for every status in 400..599 the fetcher itself raises
via `raise_for_status` before returning the response, so the caller's
generic failed-to-load-page branch can only execute for non-200, non-202
statuses strictly below 400 or at/above 600. -/
theorem raise_for_status_coverage (status : Nat) (tables : List Table) :
    (400 ≤ status → status < 600 →
      request_results_page status = .error (.httpError status) ∧
      analyse_results status tables = .error (.httpError status)) ∧
    (∀ c, analyse_results status tables = .error (.failedToLoadPage c) →
      c = status ∧ c ≠ 200 ∧ c ≠ 202 ∧ (c < 400 ∨ 600 ≤ c)) := by
  constructor
  · intro h1 h2
    have hr : request_results_page status = .error (.httpError status) := by
      simp [request_results_page, h1, h2]
    exact ⟨hr, by simp [analyse_results, hr]⟩
  · intro c hc
    by_cases hr : 400 ≤ status ∧ status < 600
    · have he : analyse_results status tables = .error (.httpError status) := by
        simp [analyse_results, request_results_page, hr]
      rw [he] at hc
      simp at hc
    · by_cases h200 : status = 200
      · subst h200
        have he : analyse_results 200 tables = parse_results_page tables := rfl
        rw [he] at hc
        rcases parse_results_page_error_cases tables _ hc with h | ⟨s, h⟩ | ⟨s, h⟩ <;>
          simp at h
      · by_cases h202 : status = 202
        · subst h202
          have he : analyse_results 202 tables = .error .loadPageManually := rfl
          rw [he] at hc
          simp at hc
        · have he : analyse_results status tables =
              .error (.failedToLoadPage status) := by
            simp [analyse_results, request_results_page, hr, h200, h202]
          rw [he] at hc
          simp at hc
          subst hc
          exact ⟨rfl, h200, h202, by omega⟩

/-- Witness for C10 (amended): instances at statuses 404 and 203. -/
theorem raise_for_status_coverage_witness :
    (request_results_page 404 = .error (.httpError 404) ∧
      analyse_results 404 [] = .error (.httpError 404)) ∧
    (203 = 203 ∧ 203 ≠ 200 ∧ 203 ≠ 202 ∧ (203 < 400 ∨ 600 ≤ 203)) :=
  ⟨(raise_for_status_coverage 404 []).1 (by decide) (by decide),
   (raise_for_status_coverage 203 []).2 203 rfl⟩

/-- C1 counterexample: at the one-colon time string `"10000000000:00"` the
claimed duration `M*60 + SS` is 600 000 000 000 seconds, which exceeds
pandas' int64-nanosecond `Timedelta` range (max `2^63 - 1` ns ≈ 9.22e9 s),
so the parsing stage raises `OutOfBoundsTimedelta` instead of producing
that duration. -/
theorem one_colon_overflow :
    countColons "10000000000:00" = 1 ∧
    normalise_time_string "10000000000:00" = "00:10000000000:00" ∧
    parse_timedelta (normalise_time_string "10000000000:00") = none := by
  refine ⟨by decide, by decide, ?_⟩
  decide

/-- C1 (amended): for every time string containing exactly one colon, of
the form `"M:SS"` (digits, two-digit seconds field), normalisation
prepends `"00:"` to yield `"00:M:SS"`, and — provided `M*60 + SS` seconds
is within pandas' int64-nanosecond `Timedelta` range — the duration
computed from it by the parsing stage (`to_timedelta` after
`_normalise_time_string`) equals `M*60 + SS` total whole seconds; beyond
that range `to_timedelta` raises `OutOfBoundsTimedelta`. -/
theorem normalise_one_colon_total_seconds (ms ss : List Char)
    (hmd : ms.all Char.isDigit = true) (hmne : ms ≠ [])
    (hsd : ss.all Char.isDigit = true) (hslen : ss.length = 2)
    (hbound : (digitsVal ms * 60 + digitsVal ss) * 1000000000 ≤
      9223372036854775807) :
    countColons (String.mk (ms ++ ':' :: ss)) = 1 ∧
    normalise_time_string (String.mk (ms ++ ':' :: ss)) =
      "00:" ++ String.mk (ms ++ ':' :: ss) ∧
    parse_timedelta (normalise_time_string (String.mk (ms ++ ':' :: ss))) =
      some (digitsVal ms * 60 + digitsVal ss) := by
  have hmc : ':' ∉ ms := not_mem_of_all_digits hmd (by decide)
  have hsc : ':' ∉ ss := not_mem_of_all_digits hsd (by decide)
  have h1 : countColons (String.mk (ms ++ ':' :: ss)) = 1 := by
    show (ms ++ ':' :: ss).count ':' = 1
    rw [List.count_append, List.count_cons_self,
      List.count_eq_zero.mpr hmc, List.count_eq_zero.mpr hsc]
  have h2 : normalise_time_string (String.mk (ms ++ ':' :: ss)) =
      "00:" ++ String.mk (ms ++ ':' :: ss) := by
    simp [normalise_time_string, h1]
  refine ⟨h1, h2, ?_⟩
  rw [h2]
  have hme : ms.isEmpty = false := by
    cases ms with
    | nil => exact absurd rfl hmne
    | cons c l => rfl
  have hse : ss.isEmpty = false := by
    cases ss with
    | nil => simp at hslen
    | cons c l => rfl
  have hdata : ("00:" ++ String.mk (ms ++ ':' :: ss)).data =
      ['0', '0'] ++ ':' :: (ms ++ ':' :: ss) := rfl
  have hsplit : splitOnChar ':' (['0', '0'] ++ ':' :: (ms ++ ':' :: ss)) =
      [['0', '0'], ms, ss] := by
    rw [splitOnChar_append _ (by decide), splitOnChar_append _ hmc,
      splitOnChar_of_not_mem hsc]
  rw [parse_timedelta, hdata, hsplit]
  have h00 : digitsVal ['0', '0'] = 0 := rfl
  simp [hmd, hsd, hme, hse, h00, hbound]

/-- Witness for C1 (amended) at the time string `"25:13"`. -/
theorem normalise_one_colon_total_seconds_witness :
    countColons (String.mk (['2', '5'] ++ ':' :: ['1', '3'])) = 1 ∧
    normalise_time_string (String.mk (['2', '5'] ++ ':' :: ['1', '3'])) =
      "00:" ++ String.mk (['2', '5'] ++ ':' :: ['1', '3']) ∧
    parse_timedelta
        (normalise_time_string (String.mk (['2', '5'] ++ ':' :: ['1', '3']))) =
      some (digitsVal ['2', '5'] * 60 + digitsVal ['1', '3']) :=
  normalise_one_colon_total_seconds ['2', '5'] ['1', '3']
    (by decide) (by decide) (by decide) (by decide) (by decide)

/-- C2 counterexample: at the two-colon time string `"10000000:00:00"` the
claimed duration `H*3600 + MM*60 + SS` is 36 000 000 000 seconds, which
exceeds pandas' int64-nanosecond `Timedelta` range (max `2^63 - 1` ns ≈
9.22e9 s), so the parsing stage raises `OutOfBoundsTimedelta` instead of
producing that duration. -/
theorem two_colons_overflow :
    countColons "10000000:00:00" = 2 ∧
    normalise_time_string "10000000:00:00" = "10000000:00:00" ∧
    parse_timedelta "10000000:00:00" = none := by
  refine ⟨by decide, by decide, ?_⟩
  decide

/-- C2 (amended): for every time string containing exactly two colons, of
the form `"H:MM:SS"` (digits, two-digit minutes and seconds fields),
normalisation returns the string unchanged, and — provided
`H*3600 + MM*60 + SS` seconds is within pandas' int64-nanosecond
`Timedelta` range — the duration computed from it by the parsing stage
equals `H*3600 + MM*60 + SS` total whole seconds; beyond that range
`to_timedelta` raises `OutOfBoundsTimedelta`. -/
theorem passthrough_two_colons_total_seconds (hs ms ss : List Char)
    (hhd : hs.all Char.isDigit = true) (hhne : hs ≠ [])
    (hmd : ms.all Char.isDigit = true) (hmlen : ms.length = 2)
    (hsd : ss.all Char.isDigit = true) (hslen : ss.length = 2)
    (hbound : (digitsVal hs * 3600 + digitsVal ms * 60 + digitsVal ss) *
      1000000000 ≤ 9223372036854775807) :
    countColons (String.mk (hs ++ ':' :: (ms ++ ':' :: ss))) = 2 ∧
    normalise_time_string (String.mk (hs ++ ':' :: (ms ++ ':' :: ss))) =
      String.mk (hs ++ ':' :: (ms ++ ':' :: ss)) ∧
    parse_timedelta (String.mk (hs ++ ':' :: (ms ++ ':' :: ss))) =
      some (digitsVal hs * 3600 + digitsVal ms * 60 + digitsVal ss) := by
  have hhc : ':' ∉ hs := not_mem_of_all_digits hhd (by decide)
  have hmc : ':' ∉ ms := not_mem_of_all_digits hmd (by decide)
  have hsc : ':' ∉ ss := not_mem_of_all_digits hsd (by decide)
  have h1 : countColons (String.mk (hs ++ ':' :: (ms ++ ':' :: ss))) = 2 := by
    show (hs ++ ':' :: (ms ++ ':' :: ss)).count ':' = 2
    rw [List.count_append, List.count_cons_self, List.count_append,
      List.count_cons_self, List.count_eq_zero.mpr hhc,
      List.count_eq_zero.mpr hmc, List.count_eq_zero.mpr hsc]
  have h2 : normalise_time_string (String.mk (hs ++ ':' :: (ms ++ ':' :: ss))) =
      String.mk (hs ++ ':' :: (ms ++ ':' :: ss)) := by
    simp [normalise_time_string, h1]
  refine ⟨h1, h2, ?_⟩
  have hhe : hs.isEmpty = false := by
    cases hs with
    | nil => exact absurd rfl hhne
    | cons c l => rfl
  have hme : ms.isEmpty = false := by
    cases ms with
    | nil => simp at hmlen
    | cons c l => rfl
  have hse : ss.isEmpty = false := by
    cases ss with
    | nil => simp at hslen
    | cons c l => rfl
  have hsplit : splitOnChar ':' (hs ++ ':' :: (ms ++ ':' :: ss)) =
      [hs, ms, ss] := by
    rw [splitOnChar_append _ hhc, splitOnChar_append _ hmc,
      splitOnChar_of_not_mem hsc]
  have hdata : (String.mk (hs ++ ':' :: (ms ++ ':' :: ss))).data =
      hs ++ ':' :: (ms ++ ':' :: ss) := rfl
  rw [parse_timedelta, hdata, hsplit]
  simp [hhd, hmd, hsd, hhe, hme, hse, hbound]

/-- Witness for C2 (amended) at the time string `"1:05:00"`. -/
theorem passthrough_two_colons_total_seconds_witness :
    countColons (String.mk (['1'] ++ ':' :: (['0', '5'] ++ ':' :: ['0', '0']))) = 2 ∧
    normalise_time_string
        (String.mk (['1'] ++ ':' :: (['0', '5'] ++ ':' :: ['0', '0']))) =
      String.mk (['1'] ++ ':' :: (['0', '5'] ++ ':' :: ['0', '0'])) ∧
    parse_timedelta (String.mk (['1'] ++ ':' :: (['0', '5'] ++ ':' :: ['0', '0']))) =
      some (digitsVal ['1'] * 3600 + digitsVal ['0', '5'] * 60 + digitsVal ['0', '0']) :=
  passthrough_two_colons_total_seconds ['1'] ['0', '5'] ['0', '0']
    (by decide) (by decide) (by decide) (by decide) (by decide) (by decide)
    (by decide)

lemma daysInMonth_le_31 (m y : Nat) : daysInMonth m y ≤ 31 := by
  unfold daysInMonth
  split <;> first | omega | (split <;> omega)

/-- Example row with a malformed run date. -/
def exRowBadDate : String → String := fun c =>
  if c = "Event" then "Riverside parkrun" else
  if c = "Run Date" then "2021-01-01" else
  if c = "Time" then "25:13" else ""

/-- Example qualifying table whose single row has a malformed run date. -/
def exTableBadDate : Table :=
  { columns := ["Event", "Run Date", "Time"], rows := [exRowBadDate] }

/-- C6 counterexample: `"01/01/1500"` is of the form `"DD/MM/YYYY"` and
denotes a real calendar date, but its midnight lies outside pandas'
`datetime64[ns]` `Timestamp` range (1677-09-22 .. 2262-04-11), so the
parsing stage raises `OutOfBoundsDatetime` instead of producing the
calendar date 1 January 1500. -/
theorem out_of_bounds_run_date :
    parse_run_date "01/01/1500" = none ∧
      parse_run_date "01/01/1500" ≠ some ⟨1500, 1, 1⟩ := by
  refine ⟨?_, ?_⟩ <;> decide

/-- C6 (amended): every `"Run Date"` string of the form `"DD/MM/YYYY"`
(one- or two-digit day and month, four-digit year, denoting a real
calendar date within pandas' `datetime64[ns]` `Timestamp` range,
1677-09-22 .. 2262-04-11) parses to the calendar date with year `YYYY`,
month `MM`, day `DD`; a date outside that range raises
`OutOfBoundsDatetime`; a value not matching the format, such as
`"2021-01-01"`, fails to parse; and one bad value in the selected table's
`"Run Date"` column aborts the whole parse with a date parse error —
there is no partial-success mode. -/
theorem run_date_parsing :
    (∀ ds ms ys : List Char,
      ds.all Char.isDigit = true → 1 ≤ ds.length → ds.length ≤ 2 →
      ms.all Char.isDigit = true → 1 ≤ ms.length → ms.length ≤ 2 →
      ys.all Char.isDigit = true → ys.length = 4 →
      1 ≤ digitsVal ds →
      digitsVal ds ≤ daysInMonth (digitsVal ms) (digitsVal ys) →
      1 ≤ digitsVal ms → digitsVal ms ≤ 12 → 1 ≤ digitsVal ys →
      16770922 ≤ digitsVal ys * 10000 + digitsVal ms * 100 + digitsVal ds →
      digitsVal ys * 10000 + digitsVal ms * 100 + digitsVal ds ≤ 22620411 →
      parse_run_date (String.mk (ds ++ '/' :: (ms ++ '/' :: ys))) =
        some ⟨digitsVal ys, digitsVal ms, digitsVal ds⟩) ∧
    parse_run_date "2021-01-01" = none ∧
    (∀ tables t, findResultsTable tables = some t →
      (∃ r ∈ t.rows, parse_run_date (r "Run Date") = none) →
      ∃ s, parse_results_page tables = .error (.dateParseError s)) := by
  refine ⟨?_, by decide, ?_⟩
  · intro ds ms ys hdd hdl1 hdl2 hmd hml1 hml2 hyd hyl hv1 hv2 hv3 hv4 hv5
      hv6 hv7
    have hds : '/' ∉ ds := not_mem_of_all_digits hdd (by decide)
    have hms : '/' ∉ ms := not_mem_of_all_digits hmd (by decide)
    have hys : '/' ∉ ys := not_mem_of_all_digits hyd (by decide)
    have hdata : (String.mk (ds ++ '/' :: (ms ++ '/' :: ys))).data =
        ds ++ '/' :: (ms ++ '/' :: ys) := rfl
    have hsplit : splitOnChar '/' (ds ++ '/' :: (ms ++ '/' :: ys)) =
        [ds, ms, ys] := by
      rw [splitOnChar_append _ hds, splitOnChar_append _ hms,
        splitOnChar_of_not_mem hys]
    have h31 : digitsVal ds ≤ 31 := le_trans hv2 (daysInMonth_le_31 _ _)
    rw [parse_run_date, hdata, hsplit]
    simp [hdd, hmd, hyd, hdl1, hdl2, hml1, hml2, hyl, hv1, hv2, hv3, hv4,
      hv5, hv6, hv7, h31]
  · intro tables t hfind hex
    obtain ⟨r, hr, hnone⟩ := hex
    obtain ⟨a, _, _, heq⟩ := mapOrErr_error_of_exists parse_run_date
      Err.dateParseError
      ⟨r "Run Date", List.mem_map_of_mem (fun r => r "Run Date") hr, hnone⟩
    exact ⟨a, by simp only [parse_results_page, hfind, heq]⟩

/-- Witness for C6 (amended): `"04/01/2020"` parses to 4 January 2020, and
a qualifying table containing the run date `"2021-01-01"` aborts the parse
with a date parse error. -/
theorem run_date_parsing_witness :
    parse_run_date
        (String.mk (['0', '4'] ++ '/' :: (['0', '1'] ++ '/' :: ['2', '0', '2', '0']))) =
      some ⟨2020, 1, 4⟩ ∧
    ∃ s, parse_results_page [exTableBadDate] = .error (.dateParseError s) :=
  ⟨run_date_parsing.1 ['0', '4'] ['0', '1'] ['2', '0', '2', '0']
      (by decide) (by decide) (by decide) (by decide) (by decide) (by decide)
      (by decide) (by decide) (by decide) (by decide) (by decide) (by decide)
      (by decide) (by decide) (by decide),
   run_date_parsing.2.2 [exTableBadDate] exTableBadDate rfl
      ⟨exRowBadDate, List.mem_cons_self _ _, by decide⟩⟩

lemma parse_results_page_ok_spec {tables : List Table} {t : Table}
    {out : OutFrame} (hfind : findResultsTable tables = some t)
    (hok : parse_results_page tables = .ok out) :
    ∃ dates secs,
      mapOrErr parse_run_date Err.dateParseError
        (t.rows.map (fun r => r "Run Date")) = .ok dates ∧
      mapOrErr (fun s => parse_timedelta (normalise_time_string s))
        Err.timeParseError (t.rows.map (fun r => r "Time")) = .ok secs ∧
      out = ⟨["Event", "Run Date", "time_seconds"],
        (t.rows.map (fun r => r "Event")).zip (dates.zip secs)⟩ := by
  rcases hdates : mapOrErr parse_run_date Err.dateParseError
      (t.rows.map (fun r => r "Run Date")) with e | dates
  · have h : parse_results_page tables = .error e := by
      simp only [parse_results_page, hfind, hdates]
    rw [h] at hok
    cases hok
  · rcases hsecs : mapOrErr (fun s => parse_timedelta (normalise_time_string s))
        Err.timeParseError (t.rows.map (fun r => r "Time")) with e | secs
    · have h : parse_results_page tables = .error e := by
        simp only [parse_results_page, hfind, hdates, hsecs]
      rw [h] at hok
      cases hok
    · have h : parse_results_page tables =
          .ok ⟨["Event", "Run Date", "time_seconds"],
            (t.rows.map (fun r => r "Event")).zip (dates.zip secs)⟩ := by
        simp only [parse_results_page, hfind, hdates, hsecs]
      rw [h] at hok
      cases hok
      exact ⟨dates, secs, hdates, hsecs, rfl⟩

/-- C7: for every selected table, the normalised result set has exactly the
three columns `("Event", "Run Date", "time_seconds")` in that order, and
its rows correspond one-to-one, in the same order, to the rows of the
source table: row `j` holds the source row's event name, its parsed run
date, and its parsed duration in seconds. -/
theorem result_frame_columns_and_row_order (tables : List Table) (t : Table)
    (out : OutFrame) (hfind : findResultsTable tables = some t)
    (hok : parse_results_page tables = .ok out) :
    out.columns = ["Event", "Run Date", "time_seconds"] ∧
    out.rows.length = t.rows.length ∧
    ∀ j (hj : j < t.rows.length) (hj' : j < out.rows.length),
      (out.rows[j]).1 = (t.rows[j]) "Event" ∧
      parse_run_date ((t.rows[j]) "Run Date") = some (out.rows[j]).2.1 ∧
      parse_timedelta (normalise_time_string ((t.rows[j]) "Time")) =
        some (out.rows[j]).2.2 := by
  obtain ⟨dates, secs, hdates, hsecs, rfl⟩ := parse_results_page_ok_spec hfind hok
  obtain ⟨hdlen, hdpt⟩ := mapOrErr_ok_spec hdates
  obtain ⟨hslen, hspt⟩ := mapOrErr_ok_spec hsecs
  rw [List.length_map] at hdlen hslen
  refine ⟨rfl, ?_, ?_⟩
  · simp [List.length_zip, List.length_map, hdlen, hslen]
  · intro j hj hj'
    have hd : j < dates.length := by rw [hdlen]; exact hj
    have hs : j < secs.length := by rw [hslen]; exact hj
    have hdm : j < (t.rows.map (fun r => r "Run Date")).length := by
      simpa [List.length_map] using hj
    have hsm : j < (t.rows.map (fun r => r "Time")).length := by
      simpa [List.length_map] using hj
    refine ⟨?_, ?_, ?_⟩
    · simp [List.getElem_zip, List.getElem_map]
    · have h := hdpt j hdm hd
      rw [List.getElem_map] at h
      simpa [List.getElem_zip] using h
    · have h := hspt j hsm hs
      rw [List.getElem_map] at h
      simpa [List.getElem_zip] using h

/-- Example row: Riverside parkrun on 4 January 2020 in 25:13. -/
def exRow1 : String → String := fun c =>
  if c = "Event" then "Riverside parkrun" else
  if c = "Run Date" then "04/01/2020" else
  if c = "Time" then "25:13" else ""

/-- Example row: Riverside parkrun on 11 January 2020 in 1:05:00. -/
def exRow2 : String → String := fun c =>
  if c = "Event" then "Riverside parkrun" else
  if c = "Run Date" then "11/01/2020" else
  if c = "Time" then "1:05:00" else ""

/-- Example results table with an extra column and two rows. -/
def exTableC : Table :=
  { columns := ["Event", "Run Date", "Time", "extra"], rows := [exRow1, exRow2] }

/-- The result set computed for `exTableC`. -/
def exOutFrame : OutFrame :=
  { columns := ["Event", "Run Date", "time_seconds"],
    rows := [("Riverside parkrun", ⟨2020, 1, 4⟩, 1513),
             ("Riverside parkrun", ⟨2020, 1, 11⟩, 3900)] }

/-- Witness for C7 on the two-row example table. -/
theorem result_frame_columns_and_row_order_witness :
    exOutFrame.columns = ["Event", "Run Date", "time_seconds"] ∧
    exOutFrame.rows.length = exTableC.rows.length :=
  ⟨(result_frame_columns_and_row_order [exTableC] exTableC exOutFrame rfl rfl).1,
   (result_frame_columns_and_row_order [exTableC] exTableC exOutFrame rfl rfl).2.1⟩

/-- C8: for every normalised result set, the chart's y-axis tick values are
the duration values present in the data (the `time_seconds` column, in row
order), and each tick's display text for a duration `v` is
`pad2 (v / 60) ++ ":" ++ pad2 (v % 60)` — minutes and seconds each
zero-padded to two digits, with minutes not further divided into hours, so
1513 is labelled `"25:13"` and 3900 is labelled `"65:00"`. -/
theorem yaxis_ticks_mm_ss (f : OutFrame) :
    (generate_graph f).tickvals = f.rows.map (fun r => r.2.2) ∧
    (generate_graph f).ticktext = (generate_graph f).tickvals.map tickLabel ∧
    (∀ v, tickLabel v = pad2 (v / 60) ++ ":" ++ pad2 (v % 60)) ∧
    tickLabel 1513 = "25:13" ∧ tickLabel 3900 = "65:00" := by
  refine ⟨rfl, ?_, fun v => rfl, by decide, by decide⟩
  simp [generate_graph, List.map_map]

end Parkrun
